import Mathlib

/-!
Shallow embedding of the CVE-enricher single-page app (src/src/app.jsx).

The source file contains two variants of the app separated by a document
separator: an earlier variant (lines 1-422) and a later variant
(lines 423-807).  Both variants define `normalizeRows`, `parseCSV`,
`enrich` and `onUploadCSV`.  We embed both normalizer variants
(`normalizeRowsV1` for the earlier one, `normalizeRows` for the later one)
and the shared control flow of `enrich` / `onUploadCSV` (identical in the
two variants up to alert wording; the wording here is the later variant).

JS strings are modelled as `List Char`; JS objects (enrichment records,
parsed CSV rows) as association lists `Rec := List (List Char × List Char)`
with object-assignment semantics (`setKey` replaces an existing binding in
place or appends a fresh one).  `undefined` field reads and empty strings
are both falsy in the JS expressions used by the app (`a || b`), which
`jsGet`/`jsOr` reproduce.
-/

set_option autoImplicit false
set_option maxRecDepth 100000

namespace AppSec

/-- Characters removed by the JS `String.prototype.trim` (ASCII part,
which is all the app ever feeds it). -/
def isJsWS (c : Char) : Bool :=
  c = ' ' || c = '\t' || c = '\n' || c = '\r' || c = '\x0b' || c = '\x0c'

/-- Remove trailing whitespace characters. -/
def trimRight : List Char → List Char
  | [] => []
  | c :: cs =>
    let r := trimRight cs
    if r = [] && isJsWS c then [] else c :: r

/-- JS `s.trim()`: strip leading and trailing whitespace. -/
def jsTrim (s : List Char) : List Char :=
  trimRight (s.dropWhile isJsWS)

/-- JS `s.split(/\r?\n/)`: split on newlines, a lone carriage return is not
a separator. Splitting never yields an empty list (`"".split` is `[""]`). -/
def splitRN : List Char → List (List Char)
  | [] => [[]]
  | '\r' :: '\n' :: rest => [] :: splitRN rest
  | '\n' :: rest => [] :: splitRN rest
  | c :: rest =>
    match splitRN rest with
    | [] => [[c]]
    | l :: ls => (c :: l) :: ls

/-- JS `s.split(",")`. -/
def splitC : List Char → List (List Char)
  | [] => [[]]
  | ',' :: rest => [] :: splitC rest
  | c :: rest =>
    match splitC rest with
    | [] => [[c]]
    | l :: ls => (c :: l) :: ls

/-- Convenience: the character list of a string literal. -/
def str (s : String) : List Char := s.data

/-- A JS object with string-valued fields, in insertion order. -/
abbrev Rec : Type := List (List Char × List Char)

/-- Field read returning `none` for an absent field (JS `undefined`). -/
def getOpt : Rec → List Char → Option (List Char)
  | [], _ => none
  | (k', v) :: rest, k => if k' = k then some v else getOpt rest k

/-- JS read `r.k || ""`: an absent field and an empty string coincide. -/
def jsGet (r : Rec) (k : List Char) : List Char :=
  (getOpt r k).getD []

/-- JS `a || b` on strings: the first operand unless it is falsy (empty). -/
def jsOr (a b : List Char) : List Char :=
  if a = [] then b else a

/-- JS object assignment `obj[k] = v` (and the override part of an object
literal spread): replace the binding in place if the key exists, else
append it. -/
def setKey : Rec → List Char → List Char → Rec
  | [], k, v => [(k, v)]
  | (k', v') :: rest, k, v =>
    if k' = k then (k, v) :: rest else (k', v') :: setKey rest k v

/- Field-name constants used by the normalizers and the CSV ingestion. -/

def abK : List Char := str "AI_Brief"
def bdK : List Char := str "Brief_Description"
def dsK : List Char := str "Description_Short"
def rlK : List Char := str "Remediation_Links"
def rsK : List Char := str "Remediation_Steps"
def osK : List Char := str "Owner_Suggested"
def cveK : List Char := str "CVE_ID"

/-- One record of the later `normalizeRows` (app.jsx lines 431-441):
`{...r, Description_Short: r.AI_Brief || r.Brief_Description || "",
Remediation_Steps: r.Remediation_Links || "",
Owner_Suggested: owner || r.Owner_Suggested || ""}`. -/
def normalizeRow (owner : List Char) (r : Rec) : Rec :=
  setKey
    (setKey
      (setKey r dsK (jsOr (jsGet r abK) (jsGet r bdK)))
      rsK (jsGet r rlK))
    osK (jsOr owner (jsGet r osK))

/-- Later-variant `normalizeRows(rows, owner)` (app.jsx lines 431-441):
`(rows || []).map(...)`; `none` models a null or undefined `rows`. -/
def normalizeRows (rows : Option (List Rec)) (owner : List Char) : List Rec :=
  (rows.getD []).map (normalizeRow owner)

/-- One record of the earlier `normalizeRows` (app.jsx lines 6-13):
`{...r, Description_Short: r.Brief_Description || r.Description_Short || "",
Remediation_Steps: r.Remediation_Links || r.Remediation_Steps || "",
Owner_Suggested: owner || r.Owner_Suggested || ""}`. -/
def normalizeRowV1 (owner : List Char) (r : Rec) : Rec :=
  setKey
    (setKey
      (setKey r dsK (jsOr (jsGet r bdK) (jsGet r dsK)))
      rsK (jsOr (jsGet r rlK) (jsGet r rsK)))
    osK (jsOr owner (jsGet r osK))

/-- Earlier-variant `normalizeRows(rows, owner)` (app.jsx lines 6-13). -/
def normalizeRowsV1 (rows : Option (List Rec)) (owner : List Char) : List Rec :=
  (rows.getD []).map (normalizeRowV1 owner)

/- ------------------------------ CSV parsing ------------------------------ -/

/-- `headers.forEach((h, i) => (obj[h] = cells[i] ?? ""))`, threading the
object being built; `cells[i] ?? ""` is `headD` on the positionally
consumed remainder of the cell list. -/
def buildObjFrom : Rec → List (List Char) → List (List Char) → Rec
  | obj, [], _ => obj
  | obj, h :: hs, cs => buildObjFrom (setKey obj h (cs.headD [])) hs cs.tail

/-- The object built for one data line from the header list and cell list. -/
def buildObj (headers cells : List (List Char)) : Rec :=
  buildObjFrom [] headers cells

/-- `content.trim().split(/\r?\n/)` — never empty. -/
def csvLines (content : List Char) : List (List Char) :=
  splitRN (jsTrim content)

/-- `lines[0].split(",").map(h => h.trim())`. -/
def csvHeaders (content : List Char) : List (List Char) :=
  (splitC ((csvLines content).headD [])).map jsTrim

/-- `line.split(",").map(c => c.trim())`. -/
def csvCells (line : List Char) : List (List Char) :=
  (splitC line).map jsTrim

/-- `parseCSV(content)` (app.jsx lines 45-54 and 445-455; the later
variant adds a `!lines.length` guard that can never fire because a JS
split is never empty, so the two variants coincide). -/
def parseCSV (content : List Char) : List Rec :=
  ((csvLines content).drop 1).map (fun line => buildObj (csvHeaders content) (csvCells line))

/- --------------------------- submission paths --------------------------- -/

/-- The identifier list built by `enrich` from the free-text box
(app.jsx lines 186-189 and 541-544):
`text.split(/\r?\n/).map(l => l.trim()).filter(Boolean)`. -/
def enrichCves (text : List Char) : List (List Char) :=
  ((splitRN text).map jsTrim).filter (fun s => !s.isEmpty)

/-- `Array.from(new Set(l))`: order-preserving de-duplication keeping the
first occurrence. -/
def jsSetDedup (l : List (List Char)) : List (List Char) :=
  l.foldl (fun acc s => if s ∈ acc then acc else acc ++ [s]) []

/-- The identifier list built by `onUploadCSV` (app.jsx lines 234-236 and
584): `Array.from(new Set(parsed.map(r => (r.CVE_ID || "").trim()).filter(Boolean)))`. -/
def uploadCves (csvText : List Char) : List (List Char) :=
  jsSetDedup (((parseCSV csvText).map (fun r => jsTrim (jsGet r cveK))).filter (fun s => !s.isEmpty))

/-- The outcome of one `fetch` to the enrichment endpoint, as observed by
the call site: a network failure, a non-2xx response (with status,
statusText and an optional body text — `none` models a failing
`res.text()`, swallowed by `.catch(() => "")`), a 2xx response whose JSON
decoding throws, or a decoded 2xx response whose `rows` field may be
absent. -/
inductive FetchResult : Type
  | netErr (msg : List Char)
  | httpErr (status : Nat) (statusText : List Char) (bodyText : Option (List Char))
  | jsonErr (msg : List Char)
  | success (rows : Option (List Rec))

/-- What one submission handler run produces: the request bodies issued
(each a `cves` list), the alert messages shown, and the displayed row
state after the run. -/
structure EnrichOutcome : Type where
  requests : List (List (List Char))
  alerts : List (List Char)
  rows : List Rec

/-- The message of the error thrown on a non-2xx response:
`Backend error ${res.status}: ${t || res.statusText}` with
`t = await res.text().catch(() => "")`. -/
def backendErrMsg (status : Nat) (statusText : List Char) (bodyText : Option (List Char)) : List Char :=
  str "Backend error " ++ Nat.toDigits 10 status ++ str ": " ++ jsOr (bodyText.getD []) statusText

/-- The `enrich` handler (app.jsx lines 538-576; the earlier variant at
lines 183-224 is identical up to alert wording): build `cves` from the
text box, alert and stop on an empty list or an unset `VITE_API_URL`
(`none` or empty), otherwise issue exactly one request; every thrown error
is caught once and surfaced as `alert(e.message || "Failed to enrich CVEs")`,
leaving the displayed rows unchanged; on success the decoded rows replace
the displayed rows through `normalizeRows`. -/
def enrich (api : Option (List Char)) (text owner : List Char) (oldRows : List Rec)
    (fr : FetchResult) : EnrichOutcome :=
  let cves := enrichCves text
  if cves.isEmpty then
    { requests := [], alerts := [str "Please paste at least one CVE (e.g., CVE-2021-44228)."],
      rows := oldRows }
  else if (api.getD []).isEmpty then
    { requests := [], alerts := [str "VITE_API_URL is not set."], rows := oldRows }
  else
    match fr with
    | .netErr m =>
      { requests := [cves], alerts := [jsOr m (str "Failed to enrich CVEs")], rows := oldRows }
    | .httpErr st stx bt =>
      { requests := [cves], alerts := [jsOr (backendErrMsg st stx bt) (str "Failed to enrich CVEs")],
        rows := oldRows }
    | .jsonErr m =>
      { requests := [cves], alerts := [jsOr m (str "Failed to enrich CVEs")], rows := oldRows }
    | .success rows =>
      { requests := [cves], alerts := [], rows := normalizeRows rows owner }

/-- The `onUploadCSV` handler once a file is present (app.jsx lines
578-615; the earlier variant at lines 228-267 is identical up to alert
wording): parse the CSV, extract the de-duplicated `CVE_ID` column, alert
and stop on an empty list or an unset `VITE_API_URL`, otherwise issue
exactly one request with the same error handling as `enrich`. -/
def onUploadCSV (api : Option (List Char)) (csvText owner : List Char) (oldRows : List Rec)
    (fr : FetchResult) : EnrichOutcome :=
  let cves := uploadCves csvText
  if cves.isEmpty then
    { requests := [], alerts := [str "No CVE_ID values found in CSV."], rows := oldRows }
  else if (api.getD []).isEmpty then
    { requests := [], alerts := [str "VITE_API_URL is not set."], rows := oldRows }
  else
    match fr with
    | .netErr m =>
      { requests := [cves], alerts := [jsOr m (str "Failed to enrich CVEs from CSV")],
        rows := oldRows }
    | .httpErr st stx bt =>
      { requests := [cves],
        alerts := [jsOr (backendErrMsg st stx bt) (str "Failed to enrich CVEs from CSV")],
        rows := oldRows }
    | .jsonErr m =>
      { requests := [cves], alerts := [jsOr m (str "Failed to enrich CVEs from CSV")],
        rows := oldRows }
    | .success rows =>
      { requests := [cves], alerts := [], rows := normalizeRows rows owner }

/- ------------------------------ lemmas ------------------------------ -/

theorem getOpt_setKey_self (r : Rec) (k v : List Char) :
    getOpt (setKey r k v) k = some v := by
  induction r with
  | nil => simp [setKey, getOpt]
  | cons p rest ih =>
    obtain ⟨k', v'⟩ := p
    by_cases h : k' = k
    · simp [setKey, h, getOpt]
    · simp [setKey, h, getOpt, ih]

theorem getOpt_setKey_ne (r : Rec) (k k' v : List Char) (hne : k' ≠ k) :
    getOpt (setKey r k v) k' = getOpt r k' := by
  have hne' : ¬k = k' := fun h => hne h.symm
  induction r with
  | nil => simp [setKey, getOpt, hne']
  | cons p rest ih =>
    obtain ⟨k0, v0⟩ := p
    by_cases h : k0 = k
    · subst h
      simp [setKey, getOpt, hne']
    · by_cases h' : k0 = k'
      · subst h'
        simp [setKey, getOpt, h]
      · simp [setKey, getOpt, h, h', ih]

theorem isSome_getOpt_setKey (r : Rec) (k k' v : List Char)
    (h : (getOpt r k).isSome) : (getOpt (setKey r k' v) k).isSome := by
  by_cases hk : k' = k
  · subst hk
    rw [getOpt_setKey_self]
    rfl
  · rw [getOpt_setKey_ne r k' k v (fun he => hk he.symm)]
    exact h

theorem getOpt_buildObjFrom_not_mem (hs : List (List Char)) (obj : Rec)
    (cs : List (List Char)) (k : List Char) (h : k ∉ hs) :
    getOpt (buildObjFrom obj hs cs) k = getOpt obj k := by
  induction hs generalizing obj cs with
  | nil => simp [buildObjFrom]
  | cons hd tl ih =>
    simp only [List.mem_cons, not_or] at h
    rw [buildObjFrom, ih _ _ h.2, getOpt_setKey_ne _ _ _ _ h.1]

theorem isSome_getOpt_buildObjFrom (hs : List (List Char)) (obj : Rec)
    (cs : List (List Char)) (k : List Char)
    (h : (getOpt obj k).isSome ∨ k ∈ hs) :
    (getOpt (buildObjFrom obj hs cs) k).isSome := by
  induction hs generalizing obj cs with
  | nil =>
    rcases h with h | h
    · exact h
    · simp at h
  | cons hd tl ih =>
    rw [buildObjFrom]
    apply ih
    rcases h with h | h
    · exact Or.inl (isSome_getOpt_setKey _ _ _ _ h)
    · rcases List.mem_cons.mp h with h | h
      · subst h
        refine Or.inl ?_
        rw [getOpt_setKey_self]
        rfl
      · exact Or.inr h

theorem headD_eq_getD_zero (cs : List (List Char)) : cs.headD [] = cs.getD 0 [] := by
  cases cs <;> rfl

theorem tail_getD (cs : List (List Char)) (n : Nat) :
    cs.tail.getD n [] = cs.getD (n + 1) [] := by
  cases cs <;> rfl

theorem getOpt_buildObjFrom_nodup (hs : List (List Char)) (hnd : hs.Nodup)
    (obj : Rec) (cs : List (List Char)) (i : Nat) (hi : i < hs.length) :
    getOpt (buildObjFrom obj hs cs) (hs.get ⟨i, hi⟩) = some (cs.getD i []) := by
  induction hs generalizing obj cs i with
  | nil => simp at hi
  | cons hd tl ih =>
    rcases List.nodup_cons.mp hnd with ⟨hmem, hnd'⟩
    cases i with
    | zero =>
      rw [buildObjFrom]
      show getOpt _ hd = _
      rw [getOpt_buildObjFrom_not_mem _ _ _ _ hmem, getOpt_setKey_self,
        headD_eq_getD_zero]
    | succ n =>
      rw [buildObjFrom]
      show getOpt _ (tl.get ⟨n, _⟩) = _
      rw [ih hnd' _ cs.tail n (Nat.lt_of_succ_lt_succ hi), tail_getD]

theorem jsSetDedup_foldl (l acc : List (List Char)) (h : acc.Nodup) :
    (l.foldl (fun acc s => if s ∈ acc then acc else acc ++ [s]) acc).Nodup ∧
      ∀ s, s ∈ l.foldl (fun acc s => if s ∈ acc then acc else acc ++ [s]) acc ↔
        s ∈ acc ∨ s ∈ l := by
  induction l generalizing acc with
  | nil => simp [h]
  | cons hd tl ih =>
    simp only [List.foldl_cons]
    by_cases hmem : hd ∈ acc
    · rw [if_pos hmem]
      obtain ⟨h1, h2⟩ := ih acc h
      refine ⟨h1, fun s => ?_⟩
      rw [h2, List.mem_cons]
      constructor
      · rintro (hs | hs)
        · exact Or.inl hs
        · exact Or.inr (Or.inr hs)
      · rintro (hs | hs | hs)
        · exact Or.inl hs
        · exact Or.inl (hs ▸ hmem)
        · exact Or.inr hs
    · rw [if_neg hmem]
      have hnd : (acc ++ [hd]).Nodup := by
        rw [List.nodup_append]
        refine ⟨h, List.nodup_singleton hd, ?_⟩
        intro a ha hb
        rw [List.mem_singleton] at hb
        exact hmem (hb ▸ ha)
      obtain ⟨h1, h2⟩ := ih _ hnd
      refine ⟨h1, fun s => ?_⟩
      rw [h2, List.mem_append, List.mem_singleton, List.mem_cons]
      tauto

theorem jsSetDedup_nodup (l : List (List Char)) : (jsSetDedup l).Nodup :=
  (jsSetDedup_foldl l [] List.nodup_nil).1

theorem mem_jsSetDedup (l : List (List Char)) (s : List Char) :
    s ∈ jsSetDedup l ↔ s ∈ l := by
  rw [jsSetDedup, (jsSetDedup_foldl l [] List.nodup_nil).2 s]
  simp

theorem isEmpty_false_of_ne {α : Type} {l : List α} (h : l ≠ []) : l.isEmpty = false := by
  cases l with
  | nil => exact absurd rfl h
  | cons a t => rfl

theorem ne_nil_of_mem_filter_nonempty {l : List (List Char)} {s : List Char}
    (h : s ∈ l.filter (fun s => !s.isEmpty)) : s ≠ [] := by
  rw [List.mem_filter] at h
  intro hnil
  rw [hnil] at h
  simp at h

/- Field reads on normalized records. -/

theorem jsGet_normalizeRow_ds (r : Rec) (owner : List Char) :
    jsGet (normalizeRow owner r) dsK = jsOr (jsGet r abK) (jsGet r bdK) := by
  unfold normalizeRow jsGet
  rw [getOpt_setKey_ne _ _ _ _ (by decide : dsK ≠ osK),
    getOpt_setKey_ne _ _ _ _ (by decide : dsK ≠ rsK), getOpt_setKey_self]
  rfl

theorem jsGet_normalizeRowV1_ds (r : Rec) (owner : List Char) :
    jsGet (normalizeRowV1 owner r) dsK = jsOr (jsGet r bdK) (jsGet r dsK) := by
  unfold normalizeRowV1 jsGet
  rw [getOpt_setKey_ne _ _ _ _ (by decide : dsK ≠ osK),
    getOpt_setKey_ne _ _ _ _ (by decide : dsK ≠ rsK), getOpt_setKey_self]
  rfl

theorem jsGet_normalizeRow_rs (r : Rec) (owner : List Char) :
    jsGet (normalizeRow owner r) rsK = jsGet r rlK := by
  unfold normalizeRow jsGet
  rw [getOpt_setKey_ne _ _ _ _ (by decide : rsK ≠ osK), getOpt_setKey_self]
  rfl

theorem jsGet_normalizeRowV1_rs (r : Rec) (owner : List Char) :
    jsGet (normalizeRowV1 owner r) rsK = jsOr (jsGet r rlK) (jsGet r rsK) := by
  unfold normalizeRowV1 jsGet
  rw [getOpt_setKey_ne _ _ _ _ (by decide : rsK ≠ osK), getOpt_setKey_self]
  rfl

theorem jsGet_normalizeRow_os (r : Rec) (owner : List Char) :
    jsGet (normalizeRow owner r) osK = jsOr owner (jsGet r osK) := by
  unfold normalizeRow jsGet
  rw [getOpt_setKey_self]
  rfl

theorem jsGet_normalizeRowV1_os (r : Rec) (owner : List Char) :
    jsGet (normalizeRowV1 owner r) osK = jsOr owner (jsGet r osK) := by
  unfold normalizeRowV1 jsGet
  rw [getOpt_setKey_self]
  rfl

/- Evaluation equations for the submission handlers. -/

theorem enrich_blocked_empty (api : Option (List Char)) (text owner : List Char)
    (oldRows : List Rec) (fr : FetchResult) (h : enrichCves text = []) :
    enrich api text owner oldRows fr
      = ⟨[], [str "Please paste at least one CVE (e.g., CVE-2021-44228)."], oldRows⟩ := by
  simp [enrich, h]

theorem enrich_blocked_api (api : Option (List Char)) (text owner : List Char)
    (oldRows : List Rec) (fr : FetchResult) (h1 : enrichCves text ≠ [])
    (h2 : api.getD [] = []) :
    enrich api text owner oldRows fr
      = ⟨[], [str "VITE_API_URL is not set."], oldRows⟩ := by
  simp [enrich, isEmpty_false_of_ne h1, h2]

theorem enrich_httpErr_eq (api : Option (List Char)) (text owner : List Char)
    (oldRows : List Rec) (st : Nat) (stx : List Char) (bt : Option (List Char))
    (h1 : enrichCves text ≠ []) (h2 : api.getD [] ≠ []) :
    enrich api text owner oldRows (FetchResult.httpErr st stx bt)
      = ⟨[enrichCves text],
          [jsOr (backendErrMsg st stx bt) (str "Failed to enrich CVEs")], oldRows⟩ := by
  simp [enrich, isEmpty_false_of_ne h1, isEmpty_false_of_ne h2]

theorem enrich_success_eq (api : Option (List Char)) (text owner : List Char)
    (oldRows : List Rec) (rows : Option (List Rec))
    (h1 : enrichCves text ≠ []) (h2 : api.getD [] ≠ []) :
    enrich api text owner oldRows (FetchResult.success rows)
      = ⟨[enrichCves text], [], normalizeRows rows owner⟩ := by
  simp [enrich, isEmpty_false_of_ne h1, isEmpty_false_of_ne h2]

theorem enrich_requests_cases (api : Option (List Char)) (text owner : List Char)
    (oldRows : List Rec) (fr : FetchResult) :
    (enrich api text owner oldRows fr).requests = [] ∨
      ((enrich api text owner oldRows fr).requests = [enrichCves text]
        ∧ enrichCves text ≠ [] ∧ api.getD [] ≠ []) := by
  by_cases h1 : enrichCves text = []
  · left
    rw [enrich_blocked_empty _ _ _ _ _ h1]
  · by_cases h2 : api.getD [] = []
    · left
      rw [enrich_blocked_api _ _ _ _ _ h1 h2]
    · right
      refine ⟨?_, h1, h2⟩
      cases fr <;> simp [enrich, isEmpty_false_of_ne h1, isEmpty_false_of_ne h2]

theorem upload_blocked_empty (api : Option (List Char)) (csvText owner : List Char)
    (oldRows : List Rec) (fr : FetchResult) (h : uploadCves csvText = []) :
    onUploadCSV api csvText owner oldRows fr
      = ⟨[], [str "No CVE_ID values found in CSV."], oldRows⟩ := by
  simp [onUploadCSV, h]

theorem upload_blocked_api (api : Option (List Char)) (csvText owner : List Char)
    (oldRows : List Rec) (fr : FetchResult) (h1 : uploadCves csvText ≠ [])
    (h2 : api.getD [] = []) :
    onUploadCSV api csvText owner oldRows fr
      = ⟨[], [str "VITE_API_URL is not set."], oldRows⟩ := by
  simp [onUploadCSV, isEmpty_false_of_ne h1, h2]

theorem upload_httpErr_eq (api : Option (List Char)) (csvText owner : List Char)
    (oldRows : List Rec) (st : Nat) (stx : List Char) (bt : Option (List Char))
    (h1 : uploadCves csvText ≠ []) (h2 : api.getD [] ≠ []) :
    onUploadCSV api csvText owner oldRows (FetchResult.httpErr st stx bt)
      = ⟨[uploadCves csvText],
          [jsOr (backendErrMsg st stx bt) (str "Failed to enrich CVEs from CSV")], oldRows⟩ := by
  simp [onUploadCSV, isEmpty_false_of_ne h1, isEmpty_false_of_ne h2]

theorem upload_success_eq (api : Option (List Char)) (csvText owner : List Char)
    (oldRows : List Rec) (rows : Option (List Rec))
    (h1 : uploadCves csvText ≠ []) (h2 : api.getD [] ≠ []) :
    onUploadCSV api csvText owner oldRows (FetchResult.success rows)
      = ⟨[uploadCves csvText], [], normalizeRows rows owner⟩ := by
  simp [onUploadCSV, isEmpty_false_of_ne h1, isEmpty_false_of_ne h2]

theorem upload_requests_cases (api : Option (List Char)) (csvText owner : List Char)
    (oldRows : List Rec) (fr : FetchResult) :
    (onUploadCSV api csvText owner oldRows fr).requests = [] ∨
      ((onUploadCSV api csvText owner oldRows fr).requests = [uploadCves csvText]
        ∧ uploadCves csvText ≠ [] ∧ api.getD [] ≠ []) := by
  by_cases h1 : uploadCves csvText = []
  · left
    rw [upload_blocked_empty _ _ _ _ _ h1]
  · by_cases h2 : api.getD [] = []
    · left
      rw [upload_blocked_api _ _ _ _ _ h1 h2]
    · right
      refine ⟨?_, h1, h2⟩
      cases fr <;> simp [onUploadCSV, isEmpty_false_of_ne h1, isEmpty_false_of_ne h2]

/- ------------------------------ claims ------------------------------ -/

/-- C1, counterexample: for the free-text input
`"CVE-2021-44228\nCVE-2021-44228\n\n CVE-2023-4863 "` the identifier list
sent by `enrich` is the three-element list that keeps the duplicate, not
the two distinct strings the claim states; in particular it is not
de-duplicated. -/
theorem c1_counterexample :
    (enrich (some (str "https://api.example.com"))
        (str "CVE-2021-44228\nCVE-2021-44228\n\n CVE-2023-4863 ")
        [] [] (FetchResult.success (some []))).requests
      = [[str "CVE-2021-44228", str "CVE-2021-44228", str "CVE-2023-4863"]]
    ∧ ¬ ([str "CVE-2021-44228", str "CVE-2021-44228", str "CVE-2023-4863"]
        : List (List Char)).Nodup := by
  constructor
  · decide
  · decide

/-- C1, amended: every identifier list actually handed to the network call
is non-empty (an empty list blocks the call) and contains only non-empty
trimmed-line entries; the free-text path keeps duplicates, while the CSV
path additionally de-duplicates. -/
theorem c1_request_identifiers (api : Option (List Char)) (text csvText owner : List Char)
    (oldRows : List Rec) (fr : FetchResult) :
    (∀ req ∈ (enrich api text owner oldRows fr).requests,
      req = enrichCves text ∧ req ≠ [] ∧ ∀ s ∈ req, s ≠ [])
    ∧ ∀ req ∈ (onUploadCSV api csvText owner oldRows fr).requests,
        req = uploadCves csvText ∧ req ≠ [] ∧ req.Nodup ∧ ∀ s ∈ req, s ≠ [] := by
  constructor
  · intro req hreq
    rcases enrich_requests_cases api text owner oldRows fr with h | ⟨h, hne, _⟩
    · rw [h] at hreq
      simp at hreq
    · rw [h, List.mem_singleton] at hreq
      subst hreq
      refine ⟨rfl, hne, fun s hs => ?_⟩
      rw [enrichCves] at hs
      exact ne_nil_of_mem_filter_nonempty hs
  · intro req hreq
    rcases upload_requests_cases api csvText owner oldRows fr with h | ⟨h, hne, _⟩
    · rw [h] at hreq
      simp at hreq
    · rw [h, List.mem_singleton] at hreq
      subst hreq
      refine ⟨rfl, hne, jsSetDedup_nodup _, fun s hs => ?_⟩
      rw [uploadCves, mem_jsSetDedup] at hs
      exact ne_nil_of_mem_filter_nonempty hs

/-- Witness for the amended C1 at a concrete submission. -/
theorem c1_request_identifiers_witness :
    enrichCves (str "CVE-2024-3094") ≠ [] :=
  ((c1_request_identifiers (some (str "u")) (str "CVE-2024-3094") (str "")
      (str "") [] (FetchResult.success none)).1
    (enrichCves (str "CVE-2024-3094")) (by decide)).2.1

/-- C2, counterexample: the later normalizer maps a record carrying only
`Description_Short = "z"` to an empty brief instead of `"z"` (no fallback
to the existing short description), and the earlier normalizer maps a
record with `AI_Brief = "x"` and `Brief_Description = "y"` to `"y"`
instead of `"x"` (it never consults `AI_Brief`); both contradict the
claimed three-step precedence. -/
theorem c2_counterexample :
    jsGet (normalizeRow [] [(dsK, str "z")]) dsK = []
    ∧ jsGet (normalizeRow [] [(dsK, str "z")]) dsK ≠ str "z"
    ∧ jsGet (normalizeRowV1 [] [(abK, str "x"), (bdK, str "y")]) dsK = str "y"
    ∧ jsGet (normalizeRowV1 [] [(abK, str "x"), (bdK, str "y")]) dsK ≠ str "x" := by
  refine ⟨by decide, by decide, by decide, by decide⟩

/-- C2, amended: the later normalizer computes the displayed brief as the
first non-empty of `AI_Brief` then `Brief_Description`, with empty string
(never the existing `Description_Short`) as the fallback; the earlier
normalizer computes it as the first non-empty of `Brief_Description` then
the existing `Description_Short` (it has no `AI_Brief` step).  A record
with `AI_Brief = "x"` and `Brief_Description = "y"` yields `"x"` under the
later variant, and a record with only `Brief_Description = "y"` yields
`"y"` under both. -/
theorem c2_brief_precedence (r : Rec) (owner : List Char) :
    jsGet (normalizeRow owner r) dsK = jsOr (jsGet r abK) (jsGet r bdK)
    ∧ jsGet (normalizeRowV1 owner r) dsK = jsOr (jsGet r bdK) (jsGet r dsK)
    ∧ jsGet (normalizeRow owner [(abK, str "x"), (bdK, str "y")]) dsK = str "x"
    ∧ jsGet (normalizeRow owner [(bdK, str "y")]) dsK = str "y"
    ∧ jsGet (normalizeRowV1 owner [(bdK, str "y")]) dsK = str "y" := by
  refine ⟨jsGet_normalizeRow_ds r owner, jsGet_normalizeRowV1_ds r owner, ?_, ?_, ?_⟩
  · rw [jsGet_normalizeRow_ds]
    decide
  · rw [jsGet_normalizeRow_ds]
    decide
  · rw [jsGet_normalizeRowV1_ds]
    decide

/-- C3: when a request is actually issued and the response is non-2xx,
both handlers leave the displayed rows unchanged and raise exactly one
alert. -/
theorem c3_non2xx_unchanged (api : Option (List Char)) (text csvText owner : List Char)
    (oldRows : List Rec) (st : Nat) (stx : List Char) (bt : Option (List Char))
    (h1 : enrichCves text ≠ []) (h2 : api.getD [] ≠ []) (h3 : uploadCves csvText ≠ []) :
    (enrich api text owner oldRows (FetchResult.httpErr st stx bt)).rows = oldRows
    ∧ (enrich api text owner oldRows (FetchResult.httpErr st stx bt)).alerts.length = 1
    ∧ (onUploadCSV api csvText owner oldRows (FetchResult.httpErr st stx bt)).rows = oldRows
    ∧ (onUploadCSV api csvText owner oldRows (FetchResult.httpErr st stx bt)).alerts.length = 1 := by
  rw [enrich_httpErr_eq api text owner oldRows st stx bt h1 h2,
    upload_httpErr_eq api csvText owner oldRows st stx bt h3 h2]
  exact ⟨rfl, rfl, rfl, rfl⟩

/-- Witness for C3 at a concrete 500 response. -/
theorem c3_non2xx_unchanged_witness :
    (enrich (some (str "u")) (str "CVE-2024-3094") (str "")
        [[(cveK, str "CVE-old")]] (FetchResult.httpErr 500 (str "Internal Server Error") none)).rows
      = [[(cveK, str "CVE-old")]] :=
  (c3_non2xx_unchanged (some (str "u")) (str "CVE-2024-3094") (str "CVE_ID\nCVE-9") (str "")
    [[(cveK, str "CVE-old")]] 500 (str "Internal Server Error") none
    (by decide) (by decide) (by decide)).1

/-- C4: on any CSV text whose header row contains the `CVE_ID` column,
the extraction step yields a duplicate-free list, every parsed record
carries the column, and membership in the result is exactly being a
non-empty trimmed `CVE_ID` value of some data row. -/
theorem c4_csv_extraction (t : List Char) (h : cveK ∈ csvHeaders t) :
    (uploadCves t).Nodup
    ∧ (∀ r ∈ parseCSV t, (getOpt r cveK).isSome)
    ∧ ∀ s, s ∈ uploadCves t ↔ s ≠ [] ∧ ∃ r ∈ parseCSV t, jsTrim (jsGet r cveK) = s := by
  refine ⟨jsSetDedup_nodup _, ?_, ?_⟩
  · intro r hr
    rw [parseCSV, List.mem_map] at hr
    obtain ⟨line, _, rfl⟩ := hr
    exact isSome_getOpt_buildObjFrom _ _ _ _ (Or.inr h)
  · intro s
    rw [uploadCves, mem_jsSetDedup, List.mem_filter, List.mem_map]
    constructor
    · rintro ⟨⟨r, hr, rfl⟩, hne⟩
      refine ⟨?_, r, hr, rfl⟩
      intro hnil
      rw [hnil] at hne
      simp at hne
    · rintro ⟨hne, r, hr, rfl⟩
      refine ⟨⟨r, hr, rfl⟩, ?_⟩
      simpa using hne

/-- Witness for C4 on a CSV with a duplicate and a blank identifier. -/
theorem c4_csv_extraction_witness :
    (uploadCves (str "CVE_ID,Asset\nCVE-1,a\nCVE-1,b\n ,c\nCVE-2,d")).Nodup :=
  (c4_csv_extraction (str "CVE_ID,Asset\nCVE-1,a\nCVE-1,b\n ,c\nCVE-2,d") (by decide)).1

/-- C5: CSV parsing is total: a blank input yields no records, the output
has one record per data line, and (for a header row without duplicate
names) each record maps every header to the positionally corresponding
trimmed cell, a missing cell resolving to the empty string. -/
theorem c5_parse_total (content : List Char) (hnd : (csvHeaders content).Nodup) :
    (jsTrim content = [] → parseCSV content = [])
    ∧ (parseCSV content).length = (csvLines content).length - 1
    ∧ ∀ line ∈ (csvLines content).drop 1,
        buildObj (csvHeaders content) (csvCells line) ∈ parseCSV content
        ∧ ∀ i, (hi : i < (csvHeaders content).length) →
            getOpt (buildObj (csvHeaders content) (csvCells line))
                ((csvHeaders content).get ⟨i, hi⟩)
              = some ((csvCells line).getD i []) := by
  refine ⟨?_, ?_, ?_⟩
  · intro h
    simp [parseCSV, csvLines, h, splitRN]
  · simp [parseCSV]
  · intro line hline
    refine ⟨?_, fun i hi => getOpt_buildObjFrom_nodup _ hnd _ _ i hi⟩
    rw [parseCSV]
    exact List.mem_map_of_mem _ hline

/-- Witness for C5: a short row is padded with empty strings and a blank
input parses to no records. -/
theorem c5_parse_total_witness :
    (parseCSV (str "A,B\n1,2\n3")).length = (csvLines (str "A,B\n1,2\n3")).length - 1
    ∧ parseCSV (str " ") = [] :=
  ⟨(c5_parse_total (str "A,B\n1,2\n3") (by decide)).2.1,
    (c5_parse_total (str " ") (by decide)).1 (by decide)⟩

/-- C6: both normalizer variants overlay the user default owner: a
non-empty default overrides whatever owner the record carries, and an
empty default keeps the record value, or the empty string when the field
is absent. -/
theorem c6_owner_override (r : Rec) (owner : List Char) :
    (owner ≠ [] → jsGet (normalizeRow owner r) osK = owner
      ∧ jsGet (normalizeRowV1 owner r) osK = owner)
    ∧ (owner = [] → jsGet (normalizeRow owner r) osK = jsGet r osK
      ∧ jsGet (normalizeRowV1 owner r) osK = jsGet r osK) := by
  constructor
  · intro h
    rw [jsGet_normalizeRow_os, jsGet_normalizeRowV1_os, jsOr, if_neg h]
    exact ⟨rfl, rfl⟩
  · intro h
    subst h
    rw [jsGet_normalizeRow_os, jsGet_normalizeRowV1_os, jsOr, if_pos rfl]
    exact ⟨rfl, rfl⟩

/-- Witness for C6: default owner applied to a record with no owner field. -/
theorem c6_owner_override_witness :
    jsGet (normalizeRow (str "team@x.com") []) osK = str "team@x.com" :=
  ((c6_owner_override [] (str "team@x.com")).1 (by decide)).1

/-- C7: an empty identifier set or a missing endpoint configuration blocks
both handlers: no request is issued and exactly one alert is raised. -/
theorem c7_validation_blocks (api : Option (List Char)) (text csvText owner : List Char)
    (oldRows : List Rec) (fr : FetchResult)
    (he : enrichCves text = [] ∨ api.getD [] = [])
    (hu : uploadCves csvText = [] ∨ api.getD [] = []) :
    (enrich api text owner oldRows fr).requests = []
    ∧ (enrich api text owner oldRows fr).alerts.length = 1
    ∧ (onUploadCSV api csvText owner oldRows fr).requests = []
    ∧ (onUploadCSV api csvText owner oldRows fr).alerts.length = 1 := by
  have hE : (enrich api text owner oldRows fr).requests = []
      ∧ (enrich api text owner oldRows fr).alerts.length = 1 := by
    by_cases h : enrichCves text = []
    · rw [enrich_blocked_empty _ _ _ _ _ h]
      exact ⟨rfl, rfl⟩
    · rcases he with he | he
      · exact absurd he h
      · rw [enrich_blocked_api _ _ _ _ _ h he]
        exact ⟨rfl, rfl⟩
  have hU : (onUploadCSV api csvText owner oldRows fr).requests = []
      ∧ (onUploadCSV api csvText owner oldRows fr).alerts.length = 1 := by
    by_cases h : uploadCves csvText = []
    · rw [upload_blocked_empty _ _ _ _ _ h]
      exact ⟨rfl, rfl⟩
    · rcases hu with hu | hu
      · exact absurd hu h
      · rw [upload_blocked_api _ _ _ _ _ h hu]
        exact ⟨rfl, rfl⟩
  exact ⟨hE.1, hE.2, hU.1, hU.2⟩

/-- Witness for C7: blank free text and a CSV without usable identifiers,
with no endpoint configured. -/
theorem c7_validation_blocks_witness :
    (enrich none (str "") (str "") [] (FetchResult.success none)).requests = [] :=
  (c7_validation_blocks none (str "") (str "") (str "") [] (FetchResult.success none)
    (Or.inl (by decide)) (Or.inl (by decide))).1

/-- C8: the later normalizer copies the remediation-links field into the
remediation-steps field unconditionally, the earlier one falls back to the
existing remediation-steps value, and the two agree exactly when the links
field is non-empty or the existing steps field is empty. -/
theorem c8_remediation_variants (r : Rec) (owner : List Char) :
    jsGet (normalizeRow owner r) rsK = jsGet r rlK
    ∧ jsGet (normalizeRowV1 owner r) rsK = jsOr (jsGet r rlK) (jsGet r rsK)
    ∧ (jsGet (normalizeRow owner r) rsK = jsGet (normalizeRowV1 owner r) rsK
        ↔ (jsGet r rlK ≠ [] ∨ jsGet r rsK = [])) := by
  refine ⟨jsGet_normalizeRow_rs r owner, jsGet_normalizeRowV1_rs r owner, ?_⟩
  rw [jsGet_normalizeRow_rs, jsGet_normalizeRowV1_rs, jsOr]
  by_cases h : jsGet r rlK = []
  · rw [if_pos h, h]
    simp [eq_comm]
  · rw [if_neg h]
    simp [h]

/-- C9: both normalizer variants are total, produce one output record per
input record, and carry every field other than the brief, remediation-steps
and owner fields over unchanged. -/
theorem c9_frame (r : Rec) (rows : List Rec) (owner k : List Char)
    (h1 : k ≠ dsK) (h2 : k ≠ rsK) (h3 : k ≠ osK) :
    getOpt (normalizeRow owner r) k = getOpt r k
    ∧ getOpt (normalizeRowV1 owner r) k = getOpt r k
    ∧ (normalizeRows (some rows) owner).length = rows.length
    ∧ (normalizeRowsV1 (some rows) owner).length = rows.length := by
  refine ⟨?_, ?_, by simp [normalizeRows], by simp [normalizeRowsV1]⟩
  · unfold normalizeRow
    rw [getOpt_setKey_ne _ _ _ _ h3, getOpt_setKey_ne _ _ _ _ h2,
      getOpt_setKey_ne _ _ _ _ h1]
  · unfold normalizeRowV1
    rw [getOpt_setKey_ne _ _ _ _ h3, getOpt_setKey_ne _ _ _ _ h2,
      getOpt_setKey_ne _ _ _ _ h1]

/-- Witness for C9: the identifier field of a record survives
normalization unchanged. -/
theorem c9_frame_witness :
    getOpt (normalizeRow (str "o") [(cveK, str "CVE-1")]) cveK
      = getOpt [(cveK, str "CVE-1")] cveK :=
  (c9_frame [(cveK, str "CVE-1")] [] (str "o") cveK
    (by decide) (by decide) (by decide)).1

/-- C10: a missing rows collection (null or undefined) normalizes to the
empty record list in both variants, so a 2xx response without a `rows`
field empties the displayed result set instead of erroring. -/
theorem c10_missing_rows (api : Option (List Char)) (text csvText owner : List Char)
    (oldRows : List Rec)
    (h1 : enrichCves text ≠ []) (h2 : api.getD [] ≠ []) (h3 : uploadCves csvText ≠ []) :
    normalizeRows none owner = []
    ∧ normalizeRowsV1 none owner = []
    ∧ (enrich api text owner oldRows (FetchResult.success none)).rows = []
    ∧ (onUploadCSV api csvText owner oldRows (FetchResult.success none)).rows = [] := by
  refine ⟨rfl, rfl, ?_, ?_⟩
  · rw [enrich_success_eq api text owner oldRows none h1 h2]
    rfl
  · rw [upload_success_eq api csvText owner oldRows none h3 h2]
    rfl

/-- Witness for C10 at a concrete submission whose response lacks rows. -/
theorem c10_missing_rows_witness :
    (enrich (some (str "u")) (str "CVE-2024-3094") (str "o")
        [[(cveK, str "CVE-old")]] (FetchResult.success none)).rows = [] :=
  (c10_missing_rows (some (str "u")) (str "CVE-2024-3094") (str "CVE_ID\nCVE-9") (str "o")
    [[(cveK, str "CVE-old")]] (by decide) (by decide) (by decide)).2.2.1

end AppSec
